import Mathlib

/-!
Verification of the `ShortPathPlugin` fragment of PathCopyCopy
(src/PathCopyCopy/plugins/prihdr/ShortPathPlugin.h).

The repository exposes only the class declaration (the header); the method
bodies live in a translation unit that is not part of the sources.  The
declaration-level facts (deleted copy operations, the static `ID` member,
the member signatures) are embedded directly from the header; the behaviour
of `Id()`, `GetPath()`, `IsAndrogynous()` and the constructors is modelled
from the specification, each such definition carrying a doc comment that
starts with `Modelled from the spec:`.
-/

/-- A 128-bit globally unique identifier, as four bounded machine words
(data1 : 32 bits, data2 and data3 : 16 bits, data4 : 64 bits), mirroring
the Windows `GUID` structure used by `ShortPathPlugin::ID`. -/
structure GUID where
  data1 : Nat
  data2 : Nat
  data3 : Nat
  data4 : Nat
deriving DecidableEq, Repr

/-- Modelled from the spec: the fixed, compile-time-constant identity GUID
`ShortPathPlugin::ID` (header line 40 declares `static const GUID ID`; the
concrete 128-bit value lives in the missing translation unit, so it is
modelled here as an arbitrary fixed constant — every claim about it depends
only on its being one fixed value, never on which value). -/
def ShortPathPlugin.ID : GUID :=
  { data1 := 0x8f2adccc, data2 := 0x9693, data3 := 0x407d, data4 := 0x9300fccb9a12b982 }

/-- Modelled from the spec: the fixed resource identifier selecting this
plugin's own functional-description text, wired in by the default
constructor (concrete value lives in the missing resource header). -/
def IDS_SHORT_PATH_PLUGIN_DESCRIPTION : Nat := 201

/-- Modelled from the spec: the fixed resource identifier selecting this
plugin's own androgynous-form description text. -/
def IDS_ANDROGYNOUS_SHORT_PATH_PLUGIN_DESCRIPTION : Nat := 202

/-- Modelled from the spec: the fixed resource identifier selecting this
plugin's own help text. -/
def IDS_SHORT_PATH_PLUGIN_HELP : Nat := 203

/-- The instance state of a `ShortPathPlugin`: the three description
resource identifiers inherited from `AndrogynousInternalPlugin`, supplied
once at construction (spec section 3: "supplied once at construction,
immutable thereafter").  Each is an `unsigned short`, kept below 2^16. -/
structure ShortPathPlugin where
  descriptionStringResourceID : Nat
  androgynousDescriptionStringResourceID : Nat
  helpTextStringResourceID : Nat
deriving DecidableEq, Repr

/-- Modelled from the spec: the protected constructor
`ShortPathPlugin(unsigned short, unsigned short, unsigned short)` (header
lines 51-53): it stores the three supplied resource identifiers for a
subclass variant, reusing the transformation logic unchanged.  The
`% 65536` mirrors the `unsigned short` parameter width. -/
def ShortPathPlugin.mkProtected (d a h : Nat) : ShortPathPlugin :=
  { descriptionStringResourceID := d % 65536
  , androgynousDescriptionStringResourceID := a % 65536
  , helpTextStringResourceID := h % 65536 }

/-- Modelled from the spec: the default constructor `ShortPathPlugin()`
(header line 42) wires the three resource-identifier fields to this
plugin's own fixed description text. -/
def ShortPathPlugin.mkDefault : ShortPathPlugin :=
  ShortPathPlugin.mkProtected
    IDS_SHORT_PATH_PLUGIN_DESCRIPTION
    IDS_ANDROGYNOUS_SHORT_PATH_PLUGIN_DESCRIPTION
    IDS_SHORT_PATH_PLUGIN_HELP

/-- Modelled from the spec: construction may fail only if identity/resource
wiring is impossible (the default constructor is `noexcept(false)`, header
line 42); such a failure is fatal and surfaced at construction time.  The
`wiringOk` flag abstracts whether the host's identity/resource wiring is
possible. -/
def ShortPathPlugin.construct (wiringOk : Bool) : Except String ShortPathPlugin :=
  if wiringOk then Except.ok ShortPathPlugin.mkDefault
  else Except.error "fatal construction-time configuration error"

/-- Modelled from the spec: `Id()` (header line 46, `noexcept(false)` so it
may in principle signal failure, hence the `Except` result) returns the
fixed identity GUID `ShortPathPlugin::ID` for this plugin type; it never
fails under normal operation. -/
def ShortPathPlugin.Id (_plugin : ShortPathPlugin) : Except String GUID :=
  Except.ok ShortPathPlugin.ID

/-- Modelled from the spec: `IsAndrogynous()` (header line 55) returns a
fixed boolean describing whether this plugin's display text is treated as
gender/number-neutral; pure, constant-returning (the concrete value lives
in the missing translation unit, modelled as `false`; every claim about it
depends only on its being one fixed value). -/
def ShortPathPlugin.IsAndrogynous (_plugin : ShortPathPlugin) : Bool :=
  false

/-- The filesystem state visible to the platform's short-path facility: a
finite map from full paths to their canonical short (8.3) aliases.  A path
that is absent (non-existent entry, or entry on a volume with short-name
generation disabled) has no short alias. -/
structure FileSystem where
  shortNames : List (String × String)
deriving DecidableEq, Repr

/-- Modelled from the spec: the platform's canonical short-path facility
("given a path, return its canonical short alias if one exists", spec
section 6): it succeeds with the stored alias, and fails (`none`) for a
non-existent path or a path on a volume with short-name generation
disabled. -/
def getShortPathName (fs : FileSystem) (p : String) : Option String :=
  (fs.shortNames.find? (fun e => e.1 == p)).map (fun e => e.2)

/-- Modelled from the spec: `GetPath(p_File)` (header line 48) delegates to
the platform's short-path facility and surfaces that call's success or
failure unchanged: on success it returns the alias the platform produced as
a newly owned string, and on failure it returns the defined empty outcome,
never a best-guess, corrupted or truncated path. -/
def ShortPathPlugin.GetPath (_plugin : ShortPathPlugin) (fs : FileSystem)
    (p_File : String) : String :=
  match getShortPathName fs p_File with
  | some s => s
  | none => ""

/-- Modelled from the spec: one full invocation of `GetPath` including its
effect footprint.  `GetPath` performs a single, bounded, read-only platform
query (spec section 5), so a run returns the result together with the —
unchanged — plugin instance and filesystem state. -/
def ShortPathPlugin.GetPathRun (plugin : ShortPathPlugin) (fs : FileSystem)
    (p_File : String) : String × ShortPathPlugin × FileSystem :=
  (plugin.GetPath fs p_File, plugin, fs)

/-- Modelled from the spec: one full invocation of `Id` including its
effect footprint (constant-returning, touches neither the instance nor the
filesystem). -/
def ShortPathPlugin.IdRun (plugin : ShortPathPlugin) (fs : FileSystem) :
    Except String GUID × ShortPathPlugin × FileSystem :=
  (plugin.Id, plugin, fs)

/-- Modelled from the spec: one full invocation of `IsAndrogynous` including
its effect footprint (pure, constant-returning, no side effects). -/
def ShortPathPlugin.IsAndrogynousRun (plugin : ShortPathPlugin) (fs : FileSystem) :
    Bool × ShortPathPlugin × FileSystem :=
  (plugin.IsAndrogynous, plugin, fs)

/-- Modelled from the spec: the host's resource-ID indirection
`resolveText(id) -> string` (spec section 9); the plugin only stores which
identifier to look up for its functional description. -/
def ShortPathPlugin.Description (resolveText : Nat → String)
    (plugin : ShortPathPlugin) : String :=
  resolveText plugin.descriptionStringResourceID

/-- Modelled from the spec: the help-text retrieval through the same
resource-ID indirection. -/
def ShortPathPlugin.HelpText (resolveText : Nat → String)
    (plugin : ShortPathPlugin) : String :=
  resolveText plugin.helpTextStringResourceID

/-- Availability of a C++ special member function as declared in the
header. -/
inductive MemberStatus
  | declared
  | deleted
deriving DecidableEq, Repr

/-- The declaration-level shape of `class ShortPathPlugin` as written in
the header: the copy constructor (line 43) and copy assignment (line 44)
are `= delete`, and `ID` (line 40) is a `static const` member of the class,
not a per-instance field. -/
structure ShortPathPluginDecl where
  copyConstructor : MemberStatus
  copyAssignment : MemberStatus
  idIsStaticMember : Bool
deriving DecidableEq, Repr

/-- The embedding of the header's class declaration
(src/PathCopyCopy/plugins/prihdr/ShortPathPlugin.h lines 40-44). -/
def shortPathPluginDecl : ShortPathPluginDecl :=
  { copyConstructor := MemberStatus.deleted
  , copyAssignment := MemberStatus.deleted
  , idIsStaticMember := true }

/-- C1: For every input path on a volume with short-name generation
disabled, or for every non-existent path — i.e. whenever the platform's
short-path facility fails — `GetPath(path)` returns the defined empty
outcome, mirroring the platform call's failure, never a best-guess,
corrupted or truncated path string. -/
theorem getPath_failure_is_empty (plugin : ShortPathPlugin) (fs : FileSystem)
    (p : String) (hfail : getShortPathName fs p = none) :
    plugin.GetPath fs p = "" := by
  unfold ShortPathPlugin.GetPath
  rw [hfail]

theorem getPath_failure_is_empty_witness :
    getShortPathName { shortNames := [] } "C:\\No Such Dir\\missing.txt" = none ∧
    ShortPathPlugin.GetPath ShortPathPlugin.mkDefault { shortNames := [] }
      "C:\\No Such Dir\\missing.txt" = "" :=
  ⟨rfl, getPath_failure_is_empty ShortPathPlugin.mkDefault { shortNames := [] }
    "C:\\No Such Dir\\missing.txt" rfl⟩

/-- C2: For every path string and every fixed filesystem state, two
successive calls to `GetPath` with no intervening filesystem change return
identical results: the second call runs on exactly the plugin instance and
filesystem state left behind by the first, and produces the same string. -/
theorem getPath_deterministic (plugin : ShortPathPlugin) (fs : FileSystem)
    (p : String) :
    (ShortPathPlugin.GetPathRun
        (plugin.GetPathRun fs p).2.1 (plugin.GetPathRun fs p).2.2 p).1 =
      (plugin.GetPathRun fs p).1 := by
  rfl

/-- C3: For every valid `ShortPathPlugin` instance and every call, `Id()`
returns (successfully) the same fixed compile-time GUID
`ShortPathPlugin.ID`; the identity never drifts and is never regenerated at
runtime. -/
theorem id_is_fixed_constant (plugin : ShortPathPlugin) :
    plugin.Id = Except.ok ShortPathPlugin.ID := by
  rfl

/-- C4: `Id()` never fails at call time: for every instance obtained from a
(successful) construction, `Id` returns a GUID and never an error — any
failure to resolve the identity is surfaced as a fatal construction-time
error (`construct` returning `Except.error`), not deferred to a later
`Id()` call. -/
theorem id_never_fails_after_construction (w : Bool) (plugin : ShortPathPlugin)
    (hconstr : ShortPathPlugin.construct w = Except.ok plugin) :
    ∃ g : GUID, plugin.Id = Except.ok g := by
  exact ⟨ShortPathPlugin.ID, rfl⟩

theorem id_never_fails_after_construction_witness :
    ShortPathPlugin.construct true = Except.ok ShortPathPlugin.mkDefault ∧
    ∃ g : GUID, ShortPathPlugin.mkDefault.Id = Except.ok g :=
  ⟨rfl, id_never_fails_after_construction true ShortPathPlugin.mkDefault rfl⟩

/-- C5: For every valid instance and every call, `IsAndrogynous()` returns
the same fixed boolean, is pure, and has no side effects: any two instances
agree on its value, and a full invocation leaves both the plugin instance
and the filesystem unchanged. -/
theorem isAndrogynous_fixed_and_pure (p q : ShortPathPlugin) (fs : FileSystem) :
    p.IsAndrogynous = q.IsAndrogynous ∧
    (p.IsAndrogynousRun fs).1 = p.IsAndrogynous ∧
    (p.IsAndrogynousRun fs).2.1 = p ∧
    (p.IsAndrogynousRun fs).2.2 = fs := by
  exact ⟨rfl, rfl, rfl, rfl⟩

/-- C6: For every subclass variant constructed via the protected
constructor with different resource identifiers, and for every input path
and filesystem state, the variant's `GetPath(path)` result is identical to
the base `ShortPathPlugin`'s; only the description/help text (resolved
through the host's resource-ID indirection from the stored identifiers)
differs. -/
theorem variant_getPath_eq_base (d a h : Nat) (fs : FileSystem) (p : String)
    (resolveText : Nat → String) :
    (ShortPathPlugin.mkProtected d a h).GetPath fs p =
      ShortPathPlugin.mkDefault.GetPath fs p ∧
    (ShortPathPlugin.mkProtected d a h).Description resolveText =
      resolveText (d % 65536) ∧
    (ShortPathPlugin.mkProtected d a h).HelpText resolveText =
      resolveText (h % 65536) := by
  exact ⟨rfl, rfl, rfl⟩

/-- C7: `GetPath` is read-only with respect to both the plugin instance and
the filesystem: a full invocation mutates no field of the plugin object and
has no observable side effect on the filesystem state. -/
theorem getPath_frame (plugin : ShortPathPlugin) (fs : FileSystem) (p : String) :
    (plugin.GetPathRun fs p).2.1 = plugin ∧
    (plugin.GetPathRun fs p).2.2 = fs := by
  exact ⟨rfl, rfl⟩

/-- C8: No `ShortPathPlugin` instance can be duplicated at the public
interface: the header declares both the copy constructor and the copy
assignment operator deleted, so every instance is a non-duplicable
capability token tied to one identity. -/
theorem copy_operations_deleted :
    shortPathPluginDecl.copyConstructor = MemberStatus.deleted ∧
    shortPathPluginDecl.copyAssignment = MemberStatus.deleted := by
  exact ⟨rfl, rfl⟩

/-- C9: The three description resource identifiers are set exactly once at
construction — the default constructor wires them to this plugin's own
fixed description text, the protected constructor stores the supplied
values — and no operation (`Id`, `GetPath`, `IsAndrogynous`) modifies
them. -/
theorem resource_ids_set_once_and_immutable (d a h : Nat)
    (plugin : ShortPathPlugin) (fs : FileSystem) (p : String) :
    ShortPathPlugin.mkDefault.descriptionStringResourceID =
        IDS_SHORT_PATH_PLUGIN_DESCRIPTION % 65536 ∧
    ShortPathPlugin.mkDefault.androgynousDescriptionStringResourceID =
        IDS_ANDROGYNOUS_SHORT_PATH_PLUGIN_DESCRIPTION % 65536 ∧
    ShortPathPlugin.mkDefault.helpTextStringResourceID =
        IDS_SHORT_PATH_PLUGIN_HELP % 65536 ∧
    (ShortPathPlugin.mkProtected d a h).descriptionStringResourceID = d % 65536 ∧
    (ShortPathPlugin.mkProtected d a h).androgynousDescriptionStringResourceID =
        a % 65536 ∧
    (ShortPathPlugin.mkProtected d a h).helpTextStringResourceID = h % 65536 ∧
    (plugin.IdRun fs).2.1 = plugin ∧
    (plugin.GetPathRun fs p).2.1 = plugin ∧
    (plugin.IsAndrogynousRun fs).2.1 = plugin := by
  exact ⟨rfl, rfl, rfl, rfl, rfl, rfl, rfl, rfl, rfl⟩

/-- C10: The plugin identity is per-type, not per-instance: any two
distinct `ShortPathPlugin` instances return equal GUIDs from `Id()`,
because both resolve to the single static class constant
`ShortPathPlugin.ID` (declared `static const` in the header). -/
theorem id_is_per_type (a b : ShortPathPlugin) :
    a.Id = b.Id ∧ a.Id = Except.ok ShortPathPlugin.ID ∧
    shortPathPluginDecl.idIsStaticMember = true := by
  exact ⟨rfl, rfl, rfl⟩
